import Mathlib

/-!
Shallow embedding of `crates/services/p2p/src/service.rs` (fuel-core p2p
service layer): the `TaskRequest` command protocol, the `Task` event loop
(`RunnableTask::run`), and the `SharedState` façade.

Payload types that the orchestration logic only moves around (transactions,
blocks, votes, block ids, sealed headers, scores) are modelled as opaque
placeholders (`Nat` / `Int`), since no claim depends on their internal
structure.  One-shot reply channels are identified by a `ChanId`; the side
effects of one loop iteration are recorded as an explicit effect list.
-/

namespace P2PService

/-- Placeholder for `fuel_core_types::fuel_types::BlockHeight` (a `u32`). -/
abbrev BlockHeight := Nat

/-- Placeholder for `BlockId`. -/
abbrev BlockId := Nat

/-- Placeholder for `SealedBlock`. -/
abbrev SealedBlock := Nat

/-- Placeholder for `SealedBlockHeader`. -/
abbrev SealedBlockHeader := Nat

/-- Placeholder for `Transaction`. -/
abbrev Transaction := Nat

/-- Placeholder for `Block` (an un-sealed block). -/
abbrev RawBlock := Nat

/-- Placeholder for `ConsensusVote`. -/
abbrev ConsensusVote := Nat

/-- Placeholder for `AppScore` (pass-through reputation delta; the service
never computes with it, only forwards it). -/
abbrev AppScore := Int

/-- The network engine's parsed peer identity (`libp2p::PeerId`).  The
service treats it as opaque once parsed; we keep the bytes it came from. -/
structure PeerId where
  bytes : List Nat
deriving DecidableEq, Repr

/-- `std::ops::Range<u32>`: a half-open range of block heights. -/
structure HeightRange where
  start : Nat
  stop : Nat
deriving DecidableEq, Repr

/-- `Range::len()`: number of elements of the half-open range (`0` when
`stop <= start`, matching Rust's `ExactSizeIterator::len`). -/
def HeightRange.len (r : HeightRange) : Nat := r.stop - r.start

/-- `Range::is_empty()`: true iff `!(start < stop)`. -/
def HeightRange.isEmpty (r : HeightRange) : Bool := decide (r.stop ≤ r.start)

/-- Identifier standing for a freshly created `oneshot` reply channel. -/
abbrev ChanId := Nat

/-- `GossipsubMessageAcceptance` (fuel domain verdict). -/
inductive GossipsubMessageAcceptance where
  | Accept
  | Reject
  | Ignore
deriving DecidableEq, Repr

/-- `libp2p::gossipsub::MessageAcceptance`. -/
inductive MessageAcceptance where
  | Accept
  | Reject
  | Ignore
deriving DecidableEq, Repr

/-- `GossipsubMessageInfo`: provenance of a gossip message (raw peer-id
bytes plus the network-assigned message id). -/
structure GossipsubMessageInfo where
  peer_id : List Nat
  message_id : Nat
deriving DecidableEq, Repr

/-- `RequestMessage`: wire-level request/response message kinds. -/
inductive RequestMessage where
  | Block (height : BlockHeight)
  | SealedHeaders (range : HeightRange)
  | Transactions (block_id : BlockId)
  | Transactions2 (block_ids : List BlockId)
deriving DecidableEq, Repr

/-- `ResponseChannelItem`: a typed one-shot reply channel handed to the
network engine alongside an outbound request. -/
inductive ResponseChannelItem where
  | Block (channel : ChanId)
  | SealedHeaders (channel : ChanId)
  | Transactions (channel : ChanId)
deriving DecidableEq, Repr

/-- `OutboundResponse`: responder-role payload sent back to a remote peer. -/
inductive OutboundResponse where
  | Block (b : Option SealedBlock)
  | SealedHeaders (hs : Option (List SealedBlockHeader))
  | Transactions (ts : Option (List Transaction))
deriving DecidableEq, Repr

/-- `GossipsubBroadcastRequest`: payload for `publish_message`. -/
inductive GossipsubBroadcastRequest where
  | NewTx (tx : Transaction)
  | NewBlock (b : RawBlock)
  | ConsensusVote (v : ConsensusVote)
deriving DecidableEq, Repr

/-- `GossipsubMessage`: inbound gossip payload kinds. -/
inductive GossipsubMessage where
  | NewTx (tx : Transaction)
  | NewBlock (b : RawBlock)
  | ConsensusVote (v : ConsensusVote)
deriving DecidableEq, Repr

/-- `FuelP2PEvent`: events emitted by the network engine.  `Other` stands
for every further variant, matched by the `_ => ()` arm in `run`. -/
inductive FuelP2PEvent where
  | PeerInfoUpdated (peer_id : PeerId) (block_height : BlockHeight)
  | GossipsubMsg (message : GossipsubMessage) (message_id : Nat) (peer_id : PeerId)
  | RequestMsg (request_message : RequestMessage) (request_id : Nat)
  | Other
deriving DecidableEq, Repr

/-- `TaskRequest`: the closed command protocol between `SharedState` and the
`Task`.  Query variants carry the identifier of their one-shot reply
channel. -/
inductive TaskRequest where
  | BroadcastTransaction (tx : Transaction)
  | BroadcastBlock (b : RawBlock)
  | BroadcastVote (v : ConsensusVote)
  | GetPeerIds (channel : ChanId)
  | GetBlock (height : BlockHeight) (channel : ChanId)
  | GetSealedHeaders (block_height_range : HeightRange) (from_peer : PeerId) (channel : ChanId)
  | GetTransactions (block_id : BlockId) (from_peer : PeerId) (channel : ChanId)
  | GetTransactions2 (block_ids : List BlockId) (from_peer : PeerId) (channel : ChanId)
  | RespondWithGossipsubMessageReport (info : GossipsubMessageInfo) (acceptance : GossipsubMessageAcceptance)
  | RespondWithPeerReport (peer_id : PeerId) (score : AppScore) (reporting_service : String)
  | SelectPeer (block_height : BlockHeight) (channel : ChanId)
deriving DecidableEq, Repr

/-- A value the `Task` itself writes into a one-shot reply channel. -/
inductive ReplyValue where
  | peerIds (ids : List PeerId)
  | peer (p : Option PeerId)
deriving DecidableEq, Repr

/-- Observable side effects of one `run` iteration, in program order. -/
inductive Effect where
  | PublishMessage (b : GossipsubBroadcastRequest)
  | SendRequestMsg (peer : Option PeerId) (msg : RequestMessage) (channel_item : ResponseChannelItem)
  | SendResponseMsg (request_id : Nat) (response : OutboundResponse)
  | ReportMessageValidationResult (msg_id : Nat) (peer : PeerId) (acceptance : MessageAcceptance)
  | ReportPeer (peer : PeerId) (score : AppScore) (reporting_service : String)
  | UpdateBlockHeight (h : BlockHeight)
  | ReplyChannel (channel : ChanId) (v : ReplyValue)
  | TxBroadcastSend (tx : Transaction) (peer : PeerId) (message_id : Nat)
  | BlockHeightBroadcastSend (peer_bytes : List Nat) (height : BlockHeight)
  | DbGetSealedBlock (height : BlockHeight)
  | DbGetTransactions (block_id : BlockId)
  | DbGetSealedHeaders (range : HeightRange)
deriving DecidableEq, Repr

/-- Result of one `run` iteration: `ok b` is `Ok(b)` (with `should_continue
= b`), `err` is a propagated storage error, `panic` is an aborting macro
(`todo` / `unreachable`). -/
inductive RunOutcome where
  | ok (should_continue : Bool)
  | err (e : String)
  | panic (msg : String)
deriving DecidableEq, Repr

/-- External collaborators consulted synchronously inside one `run`
iteration: the peer manager, the storage port, the engine's peer listing
and the fallible bytes-to-`PeerId` conversion. -/
structure Env where
  get_peer_id_with_height : BlockHeight → Option PeerId
  get_sealed_block : BlockHeight → Except String (Option SealedBlock)
  get_transactions : BlockId → Except String (Option (List Transaction))
  get_sealed_headers : HeightRange → Except String (List SealedBlockHeader)
  get_peers_ids : List PeerId
  parse_peer_id : List Nat → Option PeerId

/-- `to_message_acceptance` (service.rs): fuel verdict to libp2p verdict. -/
def to_message_acceptance (acceptance : GossipsubMessageAcceptance) : MessageAcceptance :=
  match acceptance with
  | .Accept => .Accept
  | .Reject => .Reject
  | .Ignore => .Ignore

/-- `report_message` (service.rs): converts the raw peer-id bytes; on
success reports the validation verdict to the engine, on failure only logs
a warning. -/
def report_message (env : Env) (message : GossipsubMessageInfo)
    (acceptance : GossipsubMessageAcceptance) : List Effect :=
  match env.parse_peer_id message.peer_id with
  | some peer_id =>
      [.ReportMessageValidationResult message.message_id peer_id
        (to_message_acceptance acceptance)]
  | none => []

/-- The command-channel arm of `RunnableTask::run`: dispatch of one
`Option<TaskRequest>` received from `request_receiver.recv()`. -/
def handleCommand (env : Env) (next_service_request : Option TaskRequest) :
    RunOutcome × List Effect :=
  match next_service_request with
  | some (.BroadcastTransaction tx) =>
      (.ok true, [.PublishMessage (.NewTx tx)])
  | some (.BroadcastBlock b) =>
      (.ok true, [.PublishMessage (.NewBlock b)])
  | some (.BroadcastVote v) =>
      (.ok true, [.PublishMessage (.ConsensusVote v)])
  | some (.GetPeerIds channel) =>
      (.ok true, [.ReplyChannel channel (.peerIds env.get_peers_ids)])
  | some (.GetBlock height channel) =>
      let peer := env.get_peer_id_with_height height
      (.ok true, [.SendRequestMsg peer (.Block height) (.Block channel)])
  | some (.GetSealedHeaders block_height_range from_peer response) =>
      (.ok true, [.SendRequestMsg (some from_peer)
        (.SealedHeaders block_height_range) (.SealedHeaders response)])
  | some (.GetTransactions block_id from_peer channel) =>
      (.ok true, [.SendRequestMsg (some from_peer)
        (.Transactions block_id) (.Transactions channel)])
  | some (.GetTransactions2 block_ids from_peer channel) =>
      (.ok true, [.SendRequestMsg (some from_peer)
        (.Transactions2 block_ids) (.Transactions channel)])
  | some (.RespondWithGossipsubMessageReport message acceptance) =>
      (.ok true, report_message env message acceptance)
  | some (.RespondWithPeerReport peer_id score reporting_service) =>
      (.ok true, [.ReportPeer peer_id score reporting_service])
  | some (.SelectPeer block_height channel) =>
      let peer := env.get_peer_id_with_height block_height
      (.ok true, [.ReplyChannel channel (.peer peer)])
  | none =>
      (.panic "The Task is holder of the Sender, so it should not be possible", [])

/-- The network-event arm of `RunnableTask::run`: dispatch of one
`Option<FuelP2PEvent>` yielded by `p2p_service.next_event()`. -/
def handleP2PEvent (max_headers_per_request : Nat) (env : Env)
    (p2p_event : Option FuelP2PEvent) : RunOutcome × List Effect :=
  match p2p_event with
  | some (.PeerInfoUpdated peer_id block_height) =>
      (.ok true, [.BlockHeightBroadcastSend peer_id.bytes block_height])
  | some (.GossipsubMsg message message_id peer_id) =>
      match message with
      | .NewTx tx =>
          (.ok true, [.TxBroadcastSend tx peer_id message_id])
      | .NewBlock _ =>
          (.ok true, [])
      | .ConsensusVote _ =>
          (.ok true, [])
  | some (.RequestMsg request_message request_id) =>
      match request_message with
      | .Block block_height =>
          match env.get_sealed_block block_height with
          | .ok maybe_block =>
              (.ok true, [.DbGetSealedBlock block_height,
                .SendResponseMsg request_id (.Block maybe_block)])
          | .error e =>
              (.err e, [.DbGetSealedBlock block_height,
                .SendResponseMsg request_id (.Block none)])
      | .Transactions block_id =>
          match env.get_transactions block_id with
          | .ok maybe_transactions =>
              (.ok true, [.DbGetTransactions block_id,
                .SendResponseMsg request_id (.Transactions maybe_transactions)])
          | .error e =>
              (.err e, [.DbGetTransactions block_id,
                .SendResponseMsg request_id (.Transactions none)])
      | .Transactions2 _ =>
          (.panic "todo", [])
      | .SealedHeaders range =>
          if range.len > max_headers_per_request then
            (.ok true, [.SendResponseMsg request_id (.SealedHeaders none)])
          else
            match env.get_sealed_headers range with
            | .ok headers =>
                (.ok true, [.DbGetSealedHeaders range,
                  .SendResponseMsg request_id (.SealedHeaders (some headers))])
            | .error e =>
                (.err e, [.DbGetSealedHeaders range,
                  .SendResponseMsg request_id (.SealedHeaders none)])
  | some .Other => (.ok true, [])
  | none => (.ok true, [])

/-- The input source serviced by one iteration of the `tokio::select!`. -/
inductive Input where
  | shutdown
  | command (next_service_request : Option TaskRequest)
  | p2pEvent (p2p_event : Option FuelP2PEvent)
  | blockHeight (latest_block_height : Option BlockHeight)
deriving DecidableEq, Repr

/-- Readiness of the four awaited sources at the top of an iteration:
`none` means the source would suspend, `some x` that it is ready and would
yield `x`. -/
structure Ready where
  shutdown : Bool
  command : Option (Option TaskRequest)
  p2pEvent : Option (Option FuelP2PEvent)
  blockHeight : Option (Option BlockHeight)

/-- The `biased` `tokio::select!` arbitration: branches are polled in
written order (shutdown signal, command channel, engine event stream,
block-height stream) and the first ready one is serviced; `none` when no
source is ready (the iteration suspends). -/
def selectInput (r : Ready) : Option Input :=
  if r.shutdown then
    some .shutdown
  else
    match r.command with
    | some c => some (.command c)
    | none =>
        match r.p2pEvent with
        | some e => some (.p2pEvent e)
        | none =>
            match r.blockHeight with
            | some h => some (.blockHeight h)
            | none => none

/-- One iteration of `RunnableTask::run`, given the serviced input. -/
def runStep (max_headers_per_request : Nat) (env : Env) (i : Input) :
    RunOutcome × List Effect :=
  match i with
  | .shutdown => (.ok false, [])
  | .command next_service_request => handleCommand env next_service_request
  | .p2pEvent p2p_event => handleP2PEvent max_headers_per_request env p2p_event
  | .blockHeight latest_block_height =>
      match latest_block_height with
      | some h => (.ok true, [.UpdateBlockHeight h])
      | none => (.ok false, [])

/-- Outcome of a `SharedState` façade method up to the point where a command
enters the bounded channel: `panic` is an aborting `expect`, `err` is a
synchronous error returned to the caller with no command sent, `sent cmd`
means `cmd` entered the command channel (the caller then awaits the reply
channel).  The queue-full / channel-closed failure of the send itself is
orthogonal to the claims and not distinguished. -/
inductive FacadeResult where
  | panic (msg : String)
  | err (msg : String)
  | sent (cmd : TaskRequest)
deriving DecidableEq, Repr

/-- `SharedState::get_sealed_block_headers`: creates a fresh one-shot
channel (`sender`), converts the peer bytes with
`PeerId::from_bytes(..).expect("Valid PeerId")`, rejects empty ranges, then
sends `GetSealedHeaders`.  `parse` stands for the engine's fallible
bytes-to-`PeerId` conversion. -/
def get_sealed_block_headers (parse : List Nat → Option PeerId)
    (peer_id : List Nat) (block_height_range : HeightRange)
    (sender : ChanId) : FacadeResult :=
  match parse peer_id with
  | none => .panic "Valid PeerId"
  | some from_peer =>
      if block_height_range.isEmpty then
        .err "Cannot retrieve headers for an empty range of block heights"
      else
        .sent (.GetSealedHeaders block_height_range from_peer sender)

/-- `SharedState::get_transactions_from_peer`: converts the peer bytes with
an `expect`, then sends `GetTransactions`. -/
def get_transactions_from_peer (parse : List Nat → Option PeerId)
    (peer_id : List Nat) (block_id : BlockId) (sender : ChanId) : FacadeResult :=
  match parse peer_id with
  | none => .panic "Valid PeerId"
  | some from_peer => .sent (.GetTransactions block_id from_peer sender)

/-- `SharedState::get_transactions_2_from_peer`: converts the peer bytes
with an `expect`, then sends `GetTransactions2`. -/
def get_transactions_2_from_peer (parse : List Nat → Option PeerId)
    (peer_id : List Nat) (block_ids : List BlockId) (sender : ChanId) : FacadeResult :=
  match parse peer_id with
  | none => .panic "Valid PeerId"
  | some from_peer => .sent (.GetTransactions2 block_ids from_peer sender)

/-- `SharedState::report_peer`: tries `Vec::from(peer_id).try_into()`; on
failure logs a warning and returns an `anyhow` error to the caller; on
success sends `RespondWithPeerReport` carrying the report's score
(`peer_report.get_score_from_report()`, passed here already-computed). -/
def report_peer (parse : List Nat → Option PeerId) (peer_id : List Nat)
    (score : AppScore) (reporting_service : String) : FacadeResult :=
  match parse peer_id with
  | some p => .sent (.RespondWithPeerReport p score reporting_service)
  | none => .err "Failed to read PeerId"

/-- Fate of a one-shot reply channel: either its sending half was used once
(`fulfilled v`) or it was dropped without a send. -/
inductive ChannelFate (α : Type) where
  | fulfilled (v : α)
  | dropped
deriving DecidableEq, Repr

/-- The façade's `receiver.await.map_err(|e| anyhow!(..))` applied to the
channel's fate: a `tokio::sync::oneshot` receiver resolves to the sent
value, or to a closed-channel error when the sender was dropped. -/
def awaitReply {α : Type} (f : ChannelFate α) : Except String α :=
  match f with
  | .fulfilled v => .ok v
  | .dropped => .error "channel closed"

/-- What the engine does with an outbound request handed to it. -/
inductive EngineAction where
  | networkRequest (peer : PeerId) (msg : RequestMessage)
  | fulfillNone (channel_item : ResponseChannelItem)
  | dropChannel (channel_item : ResponseChannelItem)
deriving DecidableEq, Repr

/-- Modelled from the spec: `FuelP2PService::send_request_msg` lives in
`p2p_service.rs`, which is not part of the given source.  Spec section 4.3:
for requests without a qualifying peer "the reply is None without any
network round-trip" — with `peer = none` the engine fulfills the reply
channel with `None` (`fulfillNone`) and issues no network request.  With a
named peer it records the channel under a fresh request id and issues the
request; if issuing fails (`success = false`) the channel, which was moved
into the call, is dropped unfulfilled. -/
def send_request_msg_model (success : Bool) (peer : Option PeerId)
    (msg : RequestMessage) (channel_item : ResponseChannelItem) : List EngineAction :=
  match peer with
  | none => [.fulfillNone channel_item]
  | some p => if success then [.networkRequest p msg] else [.dropChannel channel_item]

/-- Modelled from the spec: `PeerId::from_bytes` / `TryFrom<Vec<u8>>` is
libp2p multihash decoding, external to the repository.  Spec section 3
states that conversion of malformed byte strings fails; modelled minimally:
the empty byte string is malformed, every other byte string parses. -/
def parsePeerIdModel (b : List Nat) : Option PeerId :=
  if b.isEmpty then none else some ⟨b⟩

/-- Concrete environment whose storage lookups all succeed. -/
def envC : Env where
  get_peer_id_with_height := fun _ => none
  get_sealed_block := fun _ => .ok none
  get_transactions := fun _ => .ok none
  get_sealed_headers := fun _ => .ok []
  get_peers_ids := []
  parse_peer_id := parsePeerIdModel

/-- Concrete environment whose storage lookups all fail. -/
def envErr : Env where
  get_peer_id_with_height := fun _ => some ⟨[1]⟩
  get_sealed_block := fun _ => .error "storage failure"
  get_transactions := fun _ => .error "storage failure"
  get_sealed_headers := fun _ => .error "storage failure"
  get_peers_ids := []
  parse_peer_id := parsePeerIdModel

/-- C1 counterexample: the claim says every peer-identity-taking
`SharedState` method returns a descriptive error on unparsable bytes and
never panics, but `get_sealed_block_headers` on the malformed (empty) byte
string hits `expect("Valid PeerId")` and panics instead of returning an
error. -/
theorem C1_counterexample :
    parsePeerIdModel [] = none ∧
    get_sealed_block_headers parsePeerIdModel [] ⟨0, 5⟩ 0 =
      .panic "Valid PeerId" := by
  exact ⟨rfl, rfl⟩

/-- C1 amended: when the peer bytes fail to parse, `report_peer` returns a
descriptive error before any command is sent, but `get_sealed_block_headers`,
`get_transactions_from_peer` and `get_transactions_2_from_peer` panic via
`expect("Valid PeerId")`; in all four methods no command is sent. -/
theorem C1_peer_parse_failure (parse : List Nat → Option PeerId)
    (peer_id : List Nat) (range : HeightRange) (block_id : BlockId)
    (block_ids : List BlockId) (score : AppScore) (svc : String)
    (sender : ChanId) (hparse : parse peer_id = none) :
    get_sealed_block_headers parse peer_id range sender = .panic "Valid PeerId" ∧
    get_transactions_from_peer parse peer_id block_id sender = .panic "Valid PeerId" ∧
    get_transactions_2_from_peer parse peer_id block_ids sender = .panic "Valid PeerId" ∧
    report_peer parse peer_id score svc = .err "Failed to read PeerId" := by
  refine ⟨?_, ?_, ?_, ?_⟩ <;>
    simp [get_sealed_block_headers, get_transactions_from_peer,
      get_transactions_2_from_peer, report_peer, hparse]

/-- C1 witness: the amended statement evaluated on the malformed empty byte
string. -/
theorem C1_peer_parse_failure_witness :
    get_sealed_block_headers parsePeerIdModel [] ⟨2, 7⟩ 1 = .panic "Valid PeerId" ∧
    get_transactions_from_peer parsePeerIdModel [] 4 1 = .panic "Valid PeerId" ∧
    get_transactions_2_from_peer parsePeerIdModel [] [4, 5] 1 = .panic "Valid PeerId" ∧
    report_peer parsePeerIdModel [] 3 "pool" = .err "Failed to read PeerId" :=
  C1_peer_parse_failure parsePeerIdModel [] ⟨2, 7⟩ 4 [4, 5] 3 "pool" 1 rfl

/-- C2 counterexample: with a configured maximum of 10, a request for the
range 0..11 (length 11) passes the façade, reaches the Task as a
`GetSealedHeaders` command, and the Task's requester arm forwards it to the
peer — no over-length rejection happens anywhere on the requester path. -/
theorem C2_counterexample :
    HeightRange.len ⟨0, 11⟩ > 10 ∧
    get_sealed_block_headers parsePeerIdModel [1] ⟨0, 11⟩ 0 =
      .sent (.GetSealedHeaders ⟨0, 11⟩ ⟨[1]⟩ 0) ∧
    runStep 10 envC (.command (some (.GetSealedHeaders ⟨0, 11⟩ ⟨[1]⟩ 0))) =
      (.ok true, [.SendRequestMsg (some ⟨[1]⟩) (.SealedHeaders ⟨0, 11⟩)
        (.SealedHeaders 0)]) := by
  exact ⟨by decide, rfl, rfl⟩

/-- C2 amended: the façade validates only that the peer bytes parse and the
range is non-empty; it holds no `max_headers_per_request` and performs no
range-length check, and the Task's `GetSealedHeaders` requester arm
forwards any range, of any length, to the named peer.  The only length
validation is on the responder path. -/
theorem C2_no_requester_length_check (parse : List Nat → Option PeerId)
    (peer_id : List Nat) (p : PeerId) (range : HeightRange) (sender : ChanId)
    (max_headers_per_request : Nat) (env : Env)
    (hparse : parse peer_id = some p) (hne : range.isEmpty = false) :
    get_sealed_block_headers parse peer_id range sender =
      .sent (.GetSealedHeaders range p sender) ∧
    runStep max_headers_per_request env
        (.command (some (.GetSealedHeaders range p sender))) =
      (.ok true, [.SendRequestMsg (some p) (.SealedHeaders range)
        (.SealedHeaders sender)]) := by
  constructor
  · simp [get_sealed_block_headers, hparse, hne]
  · rfl

/-- C2 witness: the amended statement evaluated on a range of length 11
under a configured maximum of 10. -/
theorem C2_no_requester_length_check_witness :
    get_sealed_block_headers parsePeerIdModel [1] ⟨0, 11⟩ 2 =
      .sent (.GetSealedHeaders ⟨0, 11⟩ ⟨[1]⟩ 2) ∧
    runStep 10 envC (.command (some (.GetSealedHeaders ⟨0, 11⟩ ⟨[1]⟩ 2))) =
      (.ok true, [.SendRequestMsg (some ⟨[1]⟩) (.SealedHeaders ⟨0, 11⟩)
        (.SealedHeaders 2)]) :=
  C2_no_requester_length_check parsePeerIdModel [1] ⟨[1]⟩ ⟨0, 11⟩ 2 10 envC rfl rfl

/-- C9 counterexample: a `get_sealed_block_headers` call with an empty
range but malformed (empty) peer bytes panics in `expect("Valid PeerId")`
before the empty-range validation runs, so it does not return a validation
error. -/
theorem C9_counterexample :
    HeightRange.isEmpty ⟨3, 3⟩ = true ∧
    get_sealed_block_headers parsePeerIdModel [] ⟨3, 3⟩ 0 =
      .panic "Valid PeerId" := by
  exact ⟨rfl, rfl⟩

/-- C9 amended: every `get_sealed_block_headers` call with an empty range
whose peer bytes parse successfully returns the empty-range validation
error synchronously; and regardless of the peer bytes, no call with an
empty range ever sends a command, so the Task never receives an
empty-range `GetSealedHeaders` command from the façade. -/
theorem C9_empty_range_rejected (parse : List Nat → Option PeerId)
    (peer_id : List Nat) (range : HeightRange) (sender : ChanId)
    (hempty : range.isEmpty = true) :
    (∀ p, parse peer_id = some p →
      get_sealed_block_headers parse peer_id range sender =
        .err "Cannot retrieve headers for an empty range of block heights") ∧
    (∀ cmd, get_sealed_block_headers parse peer_id range sender ≠ .sent cmd) := by
  constructor
  · intro p hp
    simp [get_sealed_block_headers, hp, hempty]
  · intro cmd
    unfold get_sealed_block_headers
    cases hp : parse peer_id with
    | none => simp
    | some p => simp [hempty]

/-- C9 witness: the amended statement evaluated on the empty range 3..3
with parseable peer bytes. -/
theorem C9_empty_range_rejected_witness :
    get_sealed_block_headers parsePeerIdModel [1] ⟨3, 3⟩ 0 =
      .err "Cannot retrieve headers for an empty range of block heights" :=
  (C9_empty_range_rejected parsePeerIdModel [1] ⟨3, 3⟩ 0 rfl).1 ⟨[1]⟩ rfl

/-- C3: as responder, a remote SealedHeaders request is first checked
against the configured maximum: every over-length range is answered with an
empty/None response with no storage lookup, and every in-bound range is
looked up in storage and the found headers are sent as the response. -/
theorem C3_responder_sealed_headers (max_headers_per_request : Nat) (env : Env)
    (range : HeightRange) (request_id : Nat) :
    (range.len > max_headers_per_request →
      runStep max_headers_per_request env
          (.p2pEvent (some (.RequestMsg (.SealedHeaders range) request_id))) =
        (.ok true, [.SendResponseMsg request_id (.SealedHeaders none)])) ∧
    (∀ hs, ¬range.len > max_headers_per_request →
      env.get_sealed_headers range = .ok hs →
      runStep max_headers_per_request env
          (.p2pEvent (some (.RequestMsg (.SealedHeaders range) request_id))) =
        (.ok true, [.DbGetSealedHeaders range,
          .SendResponseMsg request_id (.SealedHeaders (some hs))])) := by
  constructor
  · intro hgt
    simp [runStep, handleP2PEvent, hgt]
  · intro hs hle hok
    simp [runStep, handleP2PEvent, hle, hok]

/-- C3 witness: with maximum 2, the range 0..5 is answered None with no
storage lookup and the range 0..2 is looked up and answered. -/
theorem C3_responder_sealed_headers_witness :
    runStep 2 envC (.p2pEvent (some (.RequestMsg (.SealedHeaders ⟨0, 5⟩) 9))) =
      (.ok true, [.SendResponseMsg 9 (.SealedHeaders none)]) ∧
    runStep 2 envC (.p2pEvent (some (.RequestMsg (.SealedHeaders ⟨0, 2⟩) 9))) =
      (.ok true, [.DbGetSealedHeaders ⟨0, 2⟩,
        .SendResponseMsg 9 (.SealedHeaders (some []))]) :=
  ⟨(C3_responder_sealed_headers 2 envC ⟨0, 5⟩ 9).1 (by decide),
   (C3_responder_sealed_headers 2 envC ⟨0, 2⟩ 9).2 [] (by decide) rfl⟩

/-- C4: for each remote data request whose storage lookup fails, the Task
still sends an empty/None response to the remote peer and `run` returns the
storage error (`err`, terminating the actor); when the lookup succeeds,
`run` returns `ok true`. -/
theorem C4_storage_error_fatal (max_headers_per_request : Nat) (env : Env)
    (request_id : Nat) :
    (∀ h mb, env.get_sealed_block h = .ok mb →
      runStep max_headers_per_request env
          (.p2pEvent (some (.RequestMsg (.Block h) request_id))) =
        (.ok true, [.DbGetSealedBlock h,
          .SendResponseMsg request_id (.Block mb)])) ∧
    (∀ h e, env.get_sealed_block h = .error e →
      runStep max_headers_per_request env
          (.p2pEvent (some (.RequestMsg (.Block h) request_id))) =
        (.err e, [.DbGetSealedBlock h,
          .SendResponseMsg request_id (.Block none)])) ∧
    (∀ bid ts, env.get_transactions bid = .ok ts →
      runStep max_headers_per_request env
          (.p2pEvent (some (.RequestMsg (.Transactions bid) request_id))) =
        (.ok true, [.DbGetTransactions bid,
          .SendResponseMsg request_id (.Transactions ts)])) ∧
    (∀ bid e, env.get_transactions bid = .error e →
      runStep max_headers_per_request env
          (.p2pEvent (some (.RequestMsg (.Transactions bid) request_id))) =
        (.err e, [.DbGetTransactions bid,
          .SendResponseMsg request_id (.Transactions none)])) ∧
    (∀ range hs, ¬range.len > max_headers_per_request →
      env.get_sealed_headers range = .ok hs →
      runStep max_headers_per_request env
          (.p2pEvent (some (.RequestMsg (.SealedHeaders range) request_id))) =
        (.ok true, [.DbGetSealedHeaders range,
          .SendResponseMsg request_id (.SealedHeaders (some hs))])) ∧
    (∀ range e, ¬range.len > max_headers_per_request →
      env.get_sealed_headers range = .error e →
      runStep max_headers_per_request env
          (.p2pEvent (some (.RequestMsg (.SealedHeaders range) request_id))) =
        (.err e, [.DbGetSealedHeaders range,
          .SendResponseMsg request_id (.SealedHeaders none)])) := by
  refine ⟨?_, ?_, ?_, ?_, ?_, ?_⟩
  · intro h mb hok
    simp [runStep, handleP2PEvent, hok]
  · intro h e herr
    simp [runStep, handleP2PEvent, herr]
  · intro bid ts hok
    simp [runStep, handleP2PEvent, hok]
  · intro bid e herr
    simp [runStep, handleP2PEvent, herr]
  · intro range hs hle hok
    simp [runStep, handleP2PEvent, hle, hok]
  · intro range e hle herr
    simp [runStep, handleP2PEvent, hle, herr]

/-- C4 witness: the successful lookups of `envC` yield `ok true` with the
response sent, and the failing lookups of `envErr` yield the propagated
error with a best-effort None response still sent. -/
theorem C4_storage_error_fatal_witness :
    runStep 10 envC (.p2pEvent (some (.RequestMsg (.Block 3) 7))) =
      (.ok true, [.DbGetSealedBlock 3, .SendResponseMsg 7 (.Block none)]) ∧
    runStep 10 envErr (.p2pEvent (some (.RequestMsg (.Block 3) 7))) =
      (.err "storage failure", [.DbGetSealedBlock 3,
        .SendResponseMsg 7 (.Block none)]) ∧
    runStep 10 envErr (.p2pEvent (some (.RequestMsg (.Transactions 4) 7))) =
      (.err "storage failure", [.DbGetTransactions 4,
        .SendResponseMsg 7 (.Transactions none)]) ∧
    runStep 10 envErr (.p2pEvent (some (.RequestMsg (.SealedHeaders ⟨0, 1⟩) 7))) =
      (.err "storage failure", [.DbGetSealedHeaders ⟨0, 1⟩,
        .SendResponseMsg 7 (.SealedHeaders none)]) :=
  ⟨(C4_storage_error_fatal 10 envC 7).1 3 none rfl,
   (C4_storage_error_fatal 10 envErr 7).2.1 3 "storage failure" rfl,
   (C4_storage_error_fatal 10 envErr 7).2.2.2.1 4 "storage failure" rfl,
   (C4_storage_error_fatal 10 envErr 7).2.2.2.2.2 ⟨0, 1⟩ "storage failure"
     (by decide) rfl⟩

/-- C5: `SelectPeer(height)` replies with exactly the peer-manager's
`get_peer_id_with_height(height)` result and performs no network I/O; and
for `GetBlock(height)`, when the peer-manager reports no peer at or above
the height, the command hands `peer = none` to `send_request_msg`, whose
modelled behavior fulfills the caller's channel with None without a network
round-trip. -/
theorem C5_peerless_commands (max_headers_per_request : Nat) (env : Env) :
    (∀ h ch, runStep max_headers_per_request env
        (.command (some (.SelectPeer h ch))) =
      (.ok true, [.ReplyChannel ch (.peer (env.get_peer_id_with_height h))])) ∧
    (∀ h ch, env.get_peer_id_with_height h = none →
      runStep max_headers_per_request env (.command (some (.GetBlock h ch))) =
        (.ok true, [.SendRequestMsg none (.Block h) (.Block ch)]) ∧
      (∀ success, send_request_msg_model success none (.Block h) (.Block ch) =
        [.fulfillNone (.Block ch)]) ∧
      awaitReply (ChannelFate.fulfilled (none : Option SealedBlock)) = .ok none) := by
  constructor
  · intro h ch
    rfl
  · intro h ch hnone
    refine ⟨?_, fun success => rfl, rfl⟩
    simp [runStep, handleCommand, hnone]

/-- C5 witness: evaluated under `envC`, whose peer manager knows no peer at
any height. -/
theorem C5_peerless_commands_witness :
    runStep 10 envC (.command (some (.SelectPeer 5 0))) =
      (.ok true, [.ReplyChannel 0 (.peer none)]) ∧
    runStep 10 envC (.command (some (.GetBlock 5 0))) =
      (.ok true, [.SendRequestMsg none (.Block 5) (.Block 0)]) :=
  ⟨(C5_peerless_commands 10 envC).1 5 0,
   ((C5_peerless_commands 10 envC).2 5 0 rfl).1⟩

/-- C6: the responder branch for a remote Transactions2 request is
reachable and unconditionally aborts (`todo` panic) without sending any
response, for every block-id list and every environment. -/
theorem C6_transactions2_responder_panics (max_headers_per_request : Nat)
    (env : Env) (block_ids : List BlockId) (request_id : Nat) :
    runStep max_headers_per_request env
        (.p2pEvent (some (.RequestMsg (.Transactions2 block_ids) request_id))) =
      (.panic "todo", []) := rfl

/-- C7: the `biased` select services exactly one source per iteration, in
the fixed priority order shutdown > command channel > network event >
block-height import; when the shutdown signal is ready it wins over every
other ready source, and servicing it returns `ok false` with no effects. -/
theorem C7_select_priority (max_headers_per_request : Nat) (env : Env)
    (c : Option (Option TaskRequest)) (e : Option (Option FuelP2PEvent))
    (b : Option (Option BlockHeight)) :
    selectInput ⟨true, c, e, b⟩ = some .shutdown ∧
    runStep max_headers_per_request env .shutdown = (.ok false, []) ∧
    (∀ cmd, selectInput ⟨false, some cmd, e, b⟩ = some (.command cmd)) ∧
    (∀ ev, selectInput ⟨false, none, some ev, b⟩ = some (.p2pEvent ev)) ∧
    (∀ hb, selectInput ⟨false, none, none, some hb⟩ = some (.blockHeight hb)) :=
  ⟨rfl, rfl, fun _ => rfl, fun _ => rfl, fun _ => rfl⟩

/-- C8: a yielded block height is forwarded verbatim to the engine's
`update_block_height` and the iteration returns `ok true`; an exhausted
stream makes `run` return `ok false` — a normal termination, not an error. -/
theorem C8_block_height_import (max_headers_per_request : Nat) (env : Env)
    (h : BlockHeight) :
    runStep max_headers_per_request env (.blockHeight (some h)) =
      (.ok true, [.UpdateBlockHeight h]) ∧
    runStep max_headers_per_request env (.blockHeight none) =
      (.ok false, []) :=
  ⟨rfl, rfl⟩

/-- C10: in the four request/response command arms the Task performs no
reply-channel write of its own — the sole effect is `SendRequestMsg`, which
moves the channel into the engine — and the iteration returns `ok true`
with the send result discarded; under the modelled engine a failed send
drops the channel, and the awaiting caller then observes a closed-channel
error, which is distinct from a fulfilled None reply. -/
theorem C10_channel_moved_into_engine (max_headers_per_request : Nat)
    (env : Env) (h : BlockHeight) (range : HeightRange) (block_id : BlockId)
    (block_ids : List BlockId) (p : PeerId) (ch : ChanId) :
    runStep max_headers_per_request env (.command (some (.GetBlock h ch))) =
      (.ok true, [.SendRequestMsg (env.get_peer_id_with_height h)
        (.Block h) (.Block ch)]) ∧
    runStep max_headers_per_request env
        (.command (some (.GetSealedHeaders range p ch))) =
      (.ok true, [.SendRequestMsg (some p) (.SealedHeaders range)
        (.SealedHeaders ch)]) ∧
    runStep max_headers_per_request env
        (.command (some (.GetTransactions block_id p ch))) =
      (.ok true, [.SendRequestMsg (some p) (.Transactions block_id)
        (.Transactions ch)]) ∧
    runStep max_headers_per_request env
        (.command (some (.GetTransactions2 block_ids p ch))) =
      (.ok true, [.SendRequestMsg (some p) (.Transactions2 block_ids)
        (.Transactions ch)]) ∧
    (∀ msg item, send_request_msg_model false (some p) msg item =
      [.dropChannel item]) ∧
    awaitReply (ChannelFate.dropped : ChannelFate (Option (List Transaction))) =
      .error "channel closed" ∧
    (Except.error "channel closed" ≠
      (Except.ok none : Except String (Option (List Transaction)))) := by
  refine ⟨rfl, rfl, rfl, rfl, fun msg item => rfl, rfl, by simp⟩

end P2PService
